import Mathlib

set_option maxHeartbeats 1000000

/-! Shallow embedding of the remap keyboard configurator's state layer:
the Redux-style root state, the action descriptors, the top-level reducer
with its per-namespace sub-reducers (src/store/reducers), and the HID thunk
workflows (src/actions/hid.action.ts).  JavaScript numbers used as counts
and identifiers are modelled as Nat; `Date.now()` read inside the
notification sub-reducer is surfaced as an explicit clock argument `now`. -/

/-- A per-layer keymap object (`IKeymaps`), opaque to this layer. -/
abbrev Keymaps := Nat

/-- A keycode key object used by the UI slices, opaque to this layer. -/
abbrev Key := Nat

/-- A keyboard device handle (`IKeyboard`).  The `ref` field stands for
JavaScript object identity, so structural equality of this structure
corresponds to the reference equality (`==` / `!=`) used by the source.
`opened` models the result of the `isOpened()` accessor, and
`vendorId`/`productId` the result of `getInformation()`. -/
structure Keyboard where
  ref : Nat
  vendorId : Nat
  productId : Nat
  opened : Bool
  deriving DecidableEq, Repr

/-- Matrix dimensions of a keyboard definition (the structure is named
MatrixSize here because Matrix is taken by the ambient library; the
field below keeps the source name `matrix`). -/
structure MatrixSize where
  rows : Nat
  cols : Nat
  deriving DecidableEq, Repr

/-- A keyboard definition (static descriptor sourced from storage). -/
structure KeyboardDefinition where
  name : String
  vendorId : Nat
  productId : Nat
  matrix : MatrixSize
  deriving DecidableEq, Repr

/-- Modelled from the spec: the coarse session phase enum of
src/store/state.ts (file not present under src/); values used by the
source thunks and the spec's state machine in section 4.5. -/
inductive SetupPhase where
  | init
  | keyboardNotSelected
  | fetchingKeyboardDefinition
  | openedKeyboard
  deriving DecidableEq, Repr

/-- One entry of the notification queue; `kind` holds the string tag
('error' | 'warning' | 'info' | 'success') used by the source. -/
structure Notification where
  key : String
  kind : String
  message : String
  deriving DecidableEq, Repr

/-- Pending remap edits of one layer, keyed by position string. -/
abbrev LayerRemap := List (String × Keymaps)

/-- The remap table: one pending-edit map per layer. -/
abbrev Remaps := List LayerRemap

/-- Macro texts keyed by keycode. -/
abbrev Macros := List (Nat × String)

/-- Device-derived state under entities.device. -/
structure DeviceState where
  layerCount : Nat
  keymaps : List Keymaps
  macros : Macros
  deriving DecidableEq, Repr

/-- The entities slice of the root state. -/
structure Entities where
  keyboard : Option Keyboard
  keyboards : List Keyboard
  keyboardDefinition : KeyboardDefinition
  device : DeviceState
  deriving DecidableEq, Repr

/-- Package metadata under app.package. -/
structure PackageInfo where
  name : String
  version : String
  deriving DecidableEq, Repr

/-- The app slice of the root state. -/
structure AppState where
  setupPhase : SetupPhase
  remaps : Remaps
  package : PackageInfo
  notifications : List Notification
  deriving DecidableEq, Repr

/-- The keycodes slice; `keys` is the loaded keycode-info table, opaque
to this layer. -/
structure KeycodesState where
  category : String
  keys : Nat
  deriving DecidableEq, Repr

/-- The keyboards UI slice. -/
structure KeyboardsState where
  selectedLayer : Nat
  selectedPos : String
  deriving DecidableEq, Repr

/-- The keycodeKey UI slice. -/
structure KeycodekeyState where
  draggingKey : Option Key
  selectedKey : Option Key
  hoverKey : Option Key
  deriving DecidableEq, Repr

/-- The keydiff UI slice. -/
structure KeydiffState where
  origin : Option Key
  destination : Option Key
  deriving DecidableEq, Repr

/-- The header UI slice. -/
structure HeaderState where
  flushLoading : Bool
  deriving DecidableEq, Repr

/-- The keyboardDefinitionForm UI slice. -/
structure KeyboardDefinitionFormState where
  dragging : Bool
  deriving DecidableEq, Repr

/-- The root state tree.  `hid` and `storage` stand for the service
collaborator instances held in state (opaque identifiers, never written
by the reducer). -/
structure RootState where
  entities : Entities
  app : AppState
  keycodes : KeycodesState
  keyboards : KeyboardsState
  keycodeKey : KeycodekeyState
  keydiff : KeydiffState
  header : HeaderState
  keyboardDefinitionForm : KeyboardDefinitionFormState
  hid : Nat
  storage : Nat
  deriving DecidableEq, Repr

/-! Action type tags.  The HID tags are verbatim from
src/actions/hid.action.ts.  The tags of the other namespaces live in
files not present under src/ (actions.ts, storage.action.ts); they are
modelled from the spec's namespace-prefix routing convention (section
4.5) and the constant names imported by the reducer. -/

def HID_ACTIONS : String := "@Hid"
def HID_CONNECT_KEYBOARD : String := "@Hid/ConnectDevice"
def HID_DISCONNECT_KEYBOARD : String := "@Hid/DisconnectDevice"
def HID_UPDATE_KEYBOARD : String := "@Hid/UpdateKeyboard"
def HID_UPDATE_KEYBOARD_LAYER_COUNT : String := "@Hid/UpdateKeyboardLayerCount"
def HID_UPDATE_KEYBOARD_LIST : String := "@Hid/UpdateKeyboardList"
def HID_UPDATE_KEYMAPS : String := "@Hid/UpdateKeymaps"
def HID_OPEN_KEYBOARD : String := "@Hid/OpenKeyboard"

/-- Modelled from the spec: header namespace tags (actions.ts missing). -/
def HEADER_ACTIONS : String := "@Header"
def HEADER_UPDATE_FLUSH_LOADING : String := "@Header/UpdateFlushLoading"

/-- Modelled from the spec: keycodes namespace tags (actions.ts missing). -/
def KEYCODES_ACTIONS : String := "@Keycodes"
def KEYCODES_UPDATE_CATEGORY : String := "@Keycodes/UpdateCategory"
def KEYCODES_UPDATE_MACRO_TEXT : String := "@Keycodes/UpdateMacro"
def KEYCODES_LOAD_KEYCODE_INFO_FOR_ALL_CATEGORIES : String :=
  "@Keycodes/LoadKeycodeInfoForAllCategories"

/-- Modelled from the spec: keyboards namespace tags (actions.ts missing). -/
def KEYBOARDS_ACTIONS : String := "@Keyboards"
def KEYBOARDS_UPDATE_SELECTED_LAYER : String := "@Keyboards/UpdateSelectedLayer"
def KEYBOARDS_UPDATE_SELECTED_POS : String := "@Keyboards/UpdateSelectedPos"
def KEYBOARDS_CLEAR_SELECTED_POS : String := "@Keyboards/ClearSelectedPos"

/-- Modelled from the spec: keycodekey namespace tags (actions.ts missing). -/
def KEYCODEKEY_ACTIONS : String := "@KeycodeKey"
def KEYCODEKEY_UPDATE_DRAGGING_KEY : String := "@KeycodeKey/UpdateDraggingKey"
def KEYCODEKEY_UPDATE_SELECTED_KEY : String := "@KeycodeKey/UpdateSelectedKey"
def KEYCODEKEY_UPDATE_HOVER_KEY : String := "@KeycodeKey/UpdateHoverKey"

/-- Modelled from the spec: keydiff namespace tags (actions.ts missing). -/
def KEYDIFF_ACTIONS : String := "@Keydiff"
def KEYDIFF_UPDATE_KEYDIFF : String := "@Keydiff/UpdateKeydiff"
def KEYDIFF_CLEAR_KEYDIFF : String := "@Keydiff/ClearKeydiff"

/-- Modelled from the spec: notification namespace tags (actions.ts missing). -/
def NOTIFICATION_ACTIONS : String := "@Notification"
def NOTIFICATION_ADD_ERROR : String := "@Notification/AddError"
def NOTIFICATION_ADD_WARN : String := "@Notification/AddWarn"
def NOTIFICATION_ADD_INFO : String := "@Notification/AddInfo"
def NOTIFICATION_ADD_SUCCESS : String := "@Notification/AddSuccess"
def NOTIFICATION_REMOVE : String := "@Notification/Remove"

/-- Modelled from the spec: app namespace tags (actions.ts missing). -/
def APP_ACTIONS : String := "@App"
def APP_UPDATE_SETUP_PHASE : String := "@App/UpdateSetupPhase"
def APP_REMAPS_INIT : String := "@App/RemapsInit"
def APP_REMAPS_SET_KEY : String := "@App/RemapsSetKey"
def APP_REMAPS_REMOVE_KEY : String := "@App/RemapsRemoveKey"
def APP_PACKAGE_INIT : String := "@App/PackageInit"

/-- Modelled from the spec: storage namespace tags (storage.action.ts
missing). -/
def STORAGE_ACTIONS : String := "@Storage"
def STORAGE_UPDATE_KEYBOARD_DEFINITION : String :=
  "@Storage/UpdateKeyboardDefinition"

/-- Modelled from the spec: keyboard-definition-form namespace tags
(actions.ts missing). -/
def KEYBOARD_DEFINITION_FORM_ACTIONS : String := "@KeyboardDefinitionForm"
def KEYBOARD_DEFINITION_FORM_UPDATE_DRAGGING : String :=
  "@KeyboardDefinitionForm/UpdateDragging"

/-- Payload shapes carried in the `value` field of action descriptors,
one constructor per payload shape built by the action creators and read
by the sub-reducers. -/
inductive Payload where
  | keyboard (k : Keyboard)
  | keyboards (ks : List Keyboard)
  | layerCount (n : Nat)
  | keymaps (ks : List Keymaps)
  | str (s : String)
  | num (n : Nat)
  | boolVal (b : Bool)
  | phase (p : SetupPhase)
  | remaps (r : Remaps)
  | setKey (layer : Nat) (pos : String) (keymap : Keymaps)
  | removeKey (layer : Nat) (pos : String)
  | packageInfo (name version : String)
  | keydiffPair (origin destination : Option Key)
  | keyOpt (k : Option Key)
  | definition (d : KeyboardDefinition)
  | macroText (code : Nat) (text : String)
  deriving DecidableEq, Repr

/-- A plain action descriptor `{ type, value }` (the source names this
type Action; Action is taken by the ambient library). -/
structure ActionDesc where
  type : String
  value : Payload
  deriving DecidableEq, Repr

/-! Action creators.  The hidActions creators are verbatim from
src/actions/hid.action.ts; the others are modelled from the constant
names imported by the reducer and the payload reads the sub-reducers
perform on them (their defining file actions.ts is missing from src/). -/

def hidActions.connectKeyboard (keyboard : Keyboard) : ActionDesc :=
  { type := HID_CONNECT_KEYBOARD, value := .keyboard keyboard }

def hidActions.disconnectKeyboard (keyboard : Keyboard) : ActionDesc :=
  { type := HID_DISCONNECT_KEYBOARD, value := .keyboard keyboard }

def hidActions.updateKeyboard (keyboard : Keyboard) : ActionDesc :=
  { type := HID_UPDATE_KEYBOARD, value := .keyboard keyboard }

def hidActions.updateKeyboardLayerCount (layerCount : Nat) : ActionDesc :=
  { type := HID_UPDATE_KEYBOARD_LAYER_COUNT, value := .layerCount layerCount }

def hidActions.updateKeyboardList (keyboards : List Keyboard) : ActionDesc :=
  { type := HID_UPDATE_KEYBOARD_LIST, value := .keyboards keyboards }

def hidActions.updateKeymaps (keymaps : List Keymaps) : ActionDesc :=
  { type := HID_UPDATE_KEYMAPS, value := .keymaps keymaps }

/-- Modelled from the spec: AppActions.updateSetupPhase creator. -/
def AppActions.updateSetupPhase (p : SetupPhase) : ActionDesc :=
  { type := APP_UPDATE_SETUP_PHASE, value := .phase p }

/-- Modelled from the spec: AppActions.remapsInit creator; the spec says
the remap table is re-initialized "sized to layer count", so the payload
is one empty per-layer edit map per layer. -/
def AppActions.remapsInit (layerCount : Nat) : ActionDesc :=
  { type := APP_REMAPS_INIT, value := .remaps (List.replicate layerCount []) }

/-- Modelled from the spec: NotificationActions.addWarn creator. -/
def NotificationActions.addWarn (message : String) : ActionDesc :=
  { type := NOTIFICATION_ADD_WARN, value := .str message }

/-- Modelled from the spec: NotificationActions.addError creator. -/
def NotificationActions.addError (message : String) : ActionDesc :=
  { type := NOTIFICATION_ADD_ERROR, value := .str message }

/-- Modelled from the spec: NotificationActions.removeNotification creator. -/
def NotificationActions.removeNotification (key : String) : ActionDesc :=
  { type := NOTIFICATION_REMOVE, value := .str key }

/-- Modelled from the spec: KeyboardsActions.updateSelectedLayer creator. -/
def KeyboardsActions.updateSelectedLayer (layer : Nat) : ActionDesc :=
  { type := KEYBOARDS_UPDATE_SELECTED_LAYER, value := .num layer }

/-- JavaScript String.prototype.startsWith, as used by the reducer's
namespace routing. -/
def strStartsWith (s p : String) : Bool := p.data.isPrefixOf s.data

/-! The reducer (src/store/reducers, file part_001).  Each sub-reducer
mirrors its TypeScript switch as a chain of exact-tag tests; a payload
whose shape does not match the tag (impossible for creator-built actions)
leaves the draft unchanged.  `immer(state, draft => ...)` is modelled as
plain functional update: the sub-reducer returns the new snapshot. -/

/-- Set `remaps[layer][pos] = keymap` (APP_REMAPS_SET_KEY). -/
def layerSetKey (lr : LayerRemap) (pos : String) (km : Keymaps) : LayerRemap :=
  if lr.any (fun e => e.fst == pos) then
    lr.map (fun e => if e.fst == pos then (pos, km) else e)
  else
    lr ++ [(pos, km)]

/-- Delete `remaps[layer][pos]` (APP_REMAPS_REMOVE_KEY). -/
def layerRemoveKey (lr : LayerRemap) (pos : String) : LayerRemap :=
  lr.filter (fun e => e.fst != pos)

/-- Sub-reducer for the keyboard-definition-form namespace. -/
def keyboardDefinitionFormReducer (a : ActionDesc) (draft : RootState) :
    RootState :=
  if a.type = KEYBOARD_DEFINITION_FORM_UPDATE_DRAGGING then
    match a.value with
    | .boolVal b =>
      { draft with keyboardDefinitionForm :=
          { draft.keyboardDefinitionForm with dragging := b } }
    | _ => draft
  else draft

/-- Sub-reducer for the storage namespace. -/
def storageReducer (a : ActionDesc) (draft : RootState) : RootState :=
  if a.type = STORAGE_UPDATE_KEYBOARD_DEFINITION then
    match a.value with
    | .definition d =>
      { draft with entities := { draft.entities with keyboardDefinition := d } }
    | _ => draft
  else draft

/-- Sub-reducer for the app namespace. -/
def appReducer (a : ActionDesc) (draft : RootState) : RootState :=
  if a.type = APP_UPDATE_SETUP_PHASE then
    match a.value with
    | .phase p => { draft with app := { draft.app with setupPhase := p } }
    | _ => draft
  else if a.type = APP_REMAPS_INIT then
    match a.value with
    | .remaps r => { draft with app := { draft.app with remaps := r } }
    | _ => draft
  else if a.type = APP_REMAPS_SET_KEY then
    match a.value with
    | .setKey layer pos km =>
      let r := draft.app.remaps.set layer
        (layerSetKey (draft.app.remaps.getD layer []) pos km)
      { draft with app := { draft.app with remaps := r } }
    | _ => draft
  else if a.type = APP_REMAPS_REMOVE_KEY then
    match a.value with
    | .removeKey layer pos =>
      let r := draft.app.remaps.set layer
        (layerRemoveKey (draft.app.remaps.getD layer []) pos)
      { draft with app := { draft.app with remaps := r } }
    | _ => draft
  else if a.type = APP_PACKAGE_INIT then
    match a.value with
    | .packageInfo name version =>
      { draft with app := { draft.app with package := ⟨name, version⟩ } }
    | _ => draft
  else draft

/-- Sub-reducer for the hid namespace.  In the DisconnectDevice case the
source computes `draft.entities.keyboards.filter(...)` but never assigns
the result back, so the keyboard list is unchanged; the dead computation
is kept here as a discarded let binding. -/
def hidReducer (a : ActionDesc) (draft : RootState) : RootState :=
  if a.type = HID_CONNECT_KEYBOARD then
    match a.value with
    | .keyboard k =>
      let ks := draft.entities.keyboards ++ [k]
      { draft with entities := { draft.entities with keyboards := ks } }
    | _ => draft
  else if a.type = HID_DISCONNECT_KEYBOARD then
    match a.value with
    | .keyboard k =>
      let _unusedFiltered :=
        draft.entities.keyboards.filter (fun item => item != k)
      if draft.entities.keyboard = some k then
        { draft with entities := { draft.entities with keyboard := none } }
      else draft
    | _ => draft
  else if a.type = HID_UPDATE_KEYBOARD then
    match a.value with
    | .keyboard k =>
      { draft with entities := { draft.entities with keyboard := some k } }
    | _ => draft
  else if a.type = HID_UPDATE_KEYBOARD_LAYER_COUNT then
    match a.value with
    | .layerCount n =>
      let d := { draft.entities.device with layerCount := n }
      { draft with entities := { draft.entities with device := d } }
    | _ => draft
  else if a.type = HID_UPDATE_KEYBOARD_LIST then
    match a.value with
    | .keyboards ks =>
      { draft with entities := { draft.entities with keyboards := ks } }
    | _ => draft
  else if a.type = HID_UPDATE_KEYMAPS then
    match a.value with
    | .keymaps ks =>
      let d := { draft.entities.device with keymaps := ks }
      { draft with entities := { draft.entities with device := d } }
    | _ => draft
  else draft

/-- Sub-reducer for the keyboards namespace. -/
def keyboardsReducer (a : ActionDesc) (draft : RootState) : RootState :=
  if a.type = KEYBOARDS_CLEAR_SELECTED_POS then
    { draft with keyboards := { draft.keyboards with selectedPos := "" } }
  else if a.type = KEYBOARDS_UPDATE_SELECTED_LAYER then
    match a.value with
    | .num n =>
      { draft with keyboards := { draft.keyboards with selectedLayer := n } }
    | _ => draft
  else if a.type = KEYBOARDS_UPDATE_SELECTED_POS then
    match a.value with
    | .str p =>
      { draft with keyboards := { draft.keyboards with selectedPos := p } }
    | _ => draft
  else draft

/-- Sub-reducer for the keycodes namespace. -/
def keycodesReducer (a : ActionDesc) (draft : RootState) : RootState :=
  if a.type = KEYCODES_UPDATE_CATEGORY then
    match a.value with
    | .str c =>
      { draft with keycodes := { draft.keycodes with category := c } }
    | _ => draft
  else if a.type = KEYCODES_UPDATE_MACRO_TEXT then
    match a.value with
    | .macroText code text =>
      let m := (draft.entities.device.macros.filter
        (fun e => e.fst != code)) ++ [(code, text)]
      let d := { draft.entities.device with macros := m }
      { draft with entities := { draft.entities with device := d } }
    | _ => draft
  else if a.type = KEYCODES_LOAD_KEYCODE_INFO_FOR_ALL_CATEGORIES then
    match a.value with
    | .num v =>
      { draft with keycodes := { draft.keycodes with keys := v } }
    | _ => draft
  else draft

/-- Sub-reducer for the keydiff namespace. -/
def keydiffReducer (a : ActionDesc) (draft : RootState) : RootState :=
  if a.type = KEYDIFF_UPDATE_KEYDIFF then
    match a.value with
    | .keydiffPair o d =>
      { draft with keydiff := { origin := o, destination := d } }
    | _ => draft
  else if a.type = KEYDIFF_CLEAR_KEYDIFF then
    { draft with keydiff := { origin := none, destination := none } }
  else draft

/-- Sub-reducer for the keycodekey namespace. -/
def keycodekeyReducer (a : ActionDesc) (draft : RootState) : RootState :=
  if a.type = KEYCODEKEY_UPDATE_DRAGGING_KEY then
    match a.value with
    | .keyOpt k =>
      { draft with keycodeKey := { draft.keycodeKey with draggingKey := k } }
    | _ => draft
  else if a.type = KEYCODEKEY_UPDATE_SELECTED_KEY then
    match a.value with
    | .keyOpt k =>
      { draft with keycodeKey := { draft.keycodeKey with selectedKey := k } }
    | _ => draft
  else if a.type = KEYCODEKEY_UPDATE_HOVER_KEY then
    match a.value with
    | .keyOpt k =>
      { draft with keycodeKey := { draft.keycodeKey with hoverKey := k } }
    | _ => draft
  else draft

/-- Sub-reducer for the notification namespace.  The source builds the
key of every added entry from `Date.now().toString()` evaluated inside
the reducer; that clock read is the explicit argument `now`. -/
def notificationReducer (a : ActionDesc) (now : Nat) (draft : RootState) :
    RootState :=
  if a.type = NOTIFICATION_ADD_ERROR then
    match a.value with
    | .str msg =>
      let ns := draft.app.notifications ++ [⟨toString now, "error", msg⟩]
      { draft with app := { draft.app with notifications := ns } }
    | _ => draft
  else if a.type = NOTIFICATION_ADD_WARN then
    match a.value with
    | .str msg =>
      let ns := draft.app.notifications ++ [⟨toString now, "warning", msg⟩]
      { draft with app := { draft.app with notifications := ns } }
    | _ => draft
  else if a.type = NOTIFICATION_ADD_INFO then
    match a.value with
    | .str msg =>
      let ns := draft.app.notifications ++ [⟨toString now, "info", msg⟩]
      { draft with app := { draft.app with notifications := ns } }
    | _ => draft
  else if a.type = NOTIFICATION_ADD_SUCCESS then
    match a.value with
    | .str msg =>
      let ns := draft.app.notifications ++ [⟨toString now, "success", msg⟩]
      { draft with app := { draft.app with notifications := ns } }
    | _ => draft
  else if a.type = NOTIFICATION_REMOVE then
    match a.value with
    | .str key =>
      let ns := draft.app.notifications.filter (fun item => item.key != key)
      { draft with app := { draft.app with notifications := ns } }
    | _ => draft
  else draft

/-- Sub-reducer for the header namespace. -/
def headerReducer (a : ActionDesc) (draft : RootState) : RootState :=
  if a.type = HEADER_UPDATE_FLUSH_LOADING then
    match a.value with
    | .boolVal b =>
      { draft with header := { draft.header with flushLoading := b } }
    | _ => draft
  else draft

/-- The top-level reducer: coarse namespace routing by string-prefix
test, in the source's order, then the matched sub-reducer; an action
matching no namespace leaves the state unchanged.  `now` is the value of
`Date.now()` during this reduction. -/
def reducers (state : RootState) (a : ActionDesc) (now : Nat) : RootState :=
  if strStartsWith a.type HID_ACTIONS then hidReducer a state
  else if strStartsWith a.type HEADER_ACTIONS then headerReducer a state
  else if strStartsWith a.type KEYCODES_ACTIONS then keycodesReducer a state
  else if strStartsWith a.type KEYBOARDS_ACTIONS then keyboardsReducer a state
  else if strStartsWith a.type KEYCODEKEY_ACTIONS then keycodekeyReducer a state
  else if strStartsWith a.type KEYDIFF_ACTIONS then keydiffReducer a state
  else if strStartsWith a.type NOTIFICATION_ACTIONS then
    notificationReducer a now state
  else if strStartsWith a.type APP_ACTIONS then appReducer a state
  else if strStartsWith a.type STORAGE_ACTIONS then storageReducer a state
  else if strStartsWith a.type KEYBOARD_DEFINITION_FORM_ACTIONS then
    keyboardDefinitionFormReducer a state
  else state

/-! Thunk workflow models (src/actions/hid.action.ts).  Each thunk is
modelled as a pure function from the observed state and the results of
the awaited device calls to the sequence of dispatches it performs.
Device-call results are passed as arguments: `connect()` as an
`Option Keyboard` (`none` = not successful), `open()` as a Bool,
`fetchLayerCount()` as an `Option Nat`, and `fetchKeymaps` as a function
from (layer, rows, cols) to `Option Keymaps`.  The `isSameDevice`
collaborator method is an explicit function argument `same`. -/

/-- One dispatched effect: either a plain action descriptor handed to
the reducer, or the storage collaborator's definition-fetch workflow
(which dispatches its own updates independently, per spec section 6). -/
inductive Eff where
  | act (a : ActionDesc)
  | fetchKeyboardDefinition (vendorId productId : Nat)
  deriving DecidableEq, Repr

/-- Fold the plain actions of a dispatch sequence through the reducer;
the storage-fetch effect is an independent external workflow and changes
no state here.  All dispatches of one thunk run share the clock value
`now`. -/
def applyEffs (s : RootState) (effs : List Eff) (now : Nat) : RootState :=
  effs.foldl
    (fun st e =>
      match e with
      | .act a => reducers st a now
      | .fetchKeyboardDefinition _ _ => st)
    s

/-- The warning message of the already-opened-elsewhere path. -/
def alreadyOpenedMsg : String :=
  "This device has already opened by another application"

/-- The connectAnotherKeyboard thunk: `connectResult` is the result of
`hid.instance.connect()`. -/
def connectAnotherKeyboard (same : Keyboard → Keyboard → Bool)
    (s : RootState) (connectResult : Option Keyboard) : List Eff :=
  let keyboards := s.entities.keyboards
  match connectResult with
  | none => [.act (AppActions.updateSetupPhase SetupPhase.keyboardNotSelected)]
  | some keyboard =>
    if keyboard.opened then
      match keyboards.find? (fun kbd => same kbd keyboard) with
      | some _ => [.act (AppActions.updateSetupPhase SetupPhase.openedKeyboard)]
      | none => [.act (NotificationActions.addWarn alreadyOpenedMsg)]
    else
      let listedKbd := keyboards.find? (fun kbd => same kbd keyboard)
      let targetKbd := listedKbd.getD keyboard
      (if listedKbd.isNone then
        [.act (hidActions.updateKeyboardList (keyboards ++ [keyboard]))]
      else []) ++
      [.act (hidActions.updateKeyboard targetKbd),
       .act (AppActions.updateSetupPhase SetupPhase.fetchingKeyboardDefinition),
       .fetchKeyboardDefinition keyboard.vendorId keyboard.productId]

/-- The connectKeyboard thunk, taking the keyboard to connect; its
opened-path identity check is against the current handle
`entities.keyboard` (optional chaining: a null current handle fails the
check). -/
def connectKeyboard (same : Keyboard → Keyboard → Bool)
    (s : RootState) (keyboard : Keyboard) : List Eff :=
  let keyboards := s.entities.keyboards
  if keyboard.opened then
    match s.entities.keyboard with
    | some cur =>
      if same cur keyboard then
        [.act (AppActions.updateSetupPhase SetupPhase.openedKeyboard)]
      else [.act (NotificationActions.addWarn alreadyOpenedMsg)]
    | none => [.act (NotificationActions.addWarn alreadyOpenedMsg)]
  else
    let listedKbd := keyboards.find? (fun kbd => same kbd keyboard)
    let targetKbd := listedKbd.getD keyboard
    (if listedKbd.isNone then
      [.act (hidActions.updateKeyboardList (keyboards ++ [keyboard]))]
    else []) ++
    [.act (hidActions.updateKeyboard targetKbd),
     .act (AppActions.updateSetupPhase SetupPhase.fetchingKeyboardDefinition),
     .fetchKeyboardDefinition keyboard.vendorId keyboard.productId]

/-- The keymap-fetch loop of initOpenedKeyboard:
`for (let i = 0; i < layerCount; i++)` pushing each fetched keymap, and
returning early (discarding the partial list) on the first failure. -/
def keymapLoop (fetchKm : Nat → Nat → Nat → Option Keymaps)
    (rows cols layerCount : Nat) (i : Nat) (acc : List Keymaps) :
    Option (List Keymaps) :=
  if _h : i < layerCount then
    match fetchKm i rows cols with
    | none => none
    | some km => keymapLoop fetchKm rows cols layerCount (i + 1) (acc ++ [km])
  else
    some acc
termination_by layerCount - i
decreasing_by omega

/-- The initOpenedKeyboard helper: fetch the layer count, then each
layer's keymap; on any failure dispatch nothing, otherwise dispatch the
five updates in the source's order. -/
def initOpenedKeyboard (keyboard : Keyboard) (layerResult : Option Nat)
    (fetchKm : Nat → Nat → Nat → Option Keymaps) (rowCount columnCount : Nat) :
    List Eff :=
  match layerResult with
  | none => []
  | some layerCount =>
    match keymapLoop fetchKm rowCount columnCount layerCount 0 [] with
    | none => []
    | some keymaps =>
      [.act (hidActions.updateKeyboardLayerCount layerCount),
       .act (hidActions.updateKeymaps keymaps),
       .act (AppActions.remapsInit layerCount),
       .act (KeyboardsActions.updateSelectedLayer 0),
       .act (hidActions.updateKeyboard keyboard)]

/-- The openKeyboard thunk: open the current handle (`openResult` is the
result of `keyboard.open()`); on failure dispatch one error
notification; on success run initOpenedKeyboard and then dispatch the
transition to the openedKeyboard phase.  A null current handle would
throw in the source (non-null assertion) and is modelled as an empty
dispatch sequence; the claims about this thunk assume a current handle
is present. -/
def openKeyboard (s : RootState) (openResult : Bool)
    (layerResult : Option Nat) (fetchKm : Nat → Nat → Nat → Option Keymaps) :
    List Eff :=
  match s.entities.keyboard with
  | none => []
  | some keyboard =>
    if !openResult then
      [.act (NotificationActions.addError "Could not open")]
    else
      initOpenedKeyboard keyboard layerResult fetchKm
        s.entities.keyboardDefinition.matrix.rows
        s.entities.keyboardDefinition.matrix.cols ++
      [.act (AppActions.updateSetupPhase SetupPhase.openedKeyboard)]

/-! Frame machinery: for each action namespace, the set of state fields
its sub-reducer may write (its slice), read off the sub-reducers'
assignments, and the fact that everything outside the slice is
unchanged. -/

/-- The ten action namespaces routed by the top-level reducer. -/
inductive ActionNamespace where
  | hid
  | header
  | keycodes
  | keyboards
  | keycodekey
  | keydiff
  | notification
  | app
  | storage
  | keyboardDefinitionForm
  deriving DecidableEq, Repr

/-- The routing string of each namespace. -/
def nsTag : ActionNamespace → String
  | .hid => HID_ACTIONS
  | .header => HEADER_ACTIONS
  | .keycodes => KEYCODES_ACTIONS
  | .keyboards => KEYBOARDS_ACTIONS
  | .keycodekey => KEYCODEKEY_ACTIONS
  | .keydiff => KEYDIFF_ACTIONS
  | .notification => NOTIFICATION_ACTIONS
  | .app => APP_ACTIONS
  | .storage => STORAGE_ACTIONS
  | .keyboardDefinitionForm => KEYBOARD_DEFINITION_FORM_ACTIONS

/-- The sub-reducer attached to each namespace. -/
def subApply : ActionNamespace → ActionDesc → Nat → RootState → RootState
  | .hid, a, _, s => hidReducer a s
  | .header, a, _, s => headerReducer a s
  | .keycodes, a, _, s => keycodesReducer a s
  | .keyboards, a, _, s => keyboardsReducer a s
  | .keycodekey, a, _, s => keycodekeyReducer a s
  | .keydiff, a, _, s => keydiffReducer a s
  | .notification, a, now, s => notificationReducer a now s
  | .app, a, _, s => appReducer a s
  | .storage, a, _, s => storageReducer a s
  | .keyboardDefinitionForm, a, _, s => keyboardDefinitionFormReducer a s

/-- Overwrite the fields owned by a namespace's sub-reducer with fixed
defaults.  Two states agree on every part of the state tree outside the
namespace's slice exactly when eraseSlice maps them to equal states.
The slices, read off the sub-reducers' writes: hid owns
entities.keyboard, entities.keyboards, entities.device.layerCount and
entities.device.keymaps; keycodes owns the keycodes slice and
entities.device.macros; storage owns entities.keyboardDefinition; app
owns app.setupPhase, app.remaps and app.package; notification owns
app.notifications; the remaining namespaces own the top-level slice of
the same name. -/
def eraseSlice : ActionNamespace → RootState → RootState
  | .hid, s =>
    { s with entities := { s.entities with
        keyboard := none, keyboards := [],
        device := { s.entities.device with layerCount := 0, keymaps := [] } } }
  | .header, s => { s with header := ⟨false⟩ }
  | .keycodes, s =>
    { s with keycodes := ⟨"", 0⟩, entities := { s.entities with
        device := { s.entities.device with macros := [] } } }
  | .keyboards, s => { s with keyboards := ⟨0, ""⟩ }
  | .keycodekey, s => { s with keycodeKey := ⟨none, none, none⟩ }
  | .keydiff, s => { s with keydiff := ⟨none, none⟩ }
  | .notification, s => { s with app := { s.app with notifications := [] } }
  | .app, s =>
    { s with app := { s.app with
        setupPhase := .init, remaps := [], package := ⟨"", ""⟩ } }
  | .storage, s =>
    { s with entities := { s.entities with
        keyboardDefinition := ⟨"", 0, 0, ⟨0, 0⟩⟩ } }
  | .keyboardDefinitionForm, s => { s with keyboardDefinitionForm := ⟨false⟩ }

/-- Every exact action tag handled by some case of some sub-reducer;
tags outside this list (HID_OPEN_KEYBOARD among them) fall through every
switch. -/
def handledTags : List String :=
  [HID_CONNECT_KEYBOARD, HID_DISCONNECT_KEYBOARD, HID_UPDATE_KEYBOARD,
   HID_UPDATE_KEYBOARD_LAYER_COUNT, HID_UPDATE_KEYBOARD_LIST,
   HID_UPDATE_KEYMAPS,
   HEADER_UPDATE_FLUSH_LOADING,
   KEYCODES_UPDATE_CATEGORY, KEYCODES_UPDATE_MACRO_TEXT,
   KEYCODES_LOAD_KEYCODE_INFO_FOR_ALL_CATEGORIES,
   KEYBOARDS_CLEAR_SELECTED_POS, KEYBOARDS_UPDATE_SELECTED_LAYER,
   KEYBOARDS_UPDATE_SELECTED_POS,
   KEYCODEKEY_UPDATE_DRAGGING_KEY, KEYCODEKEY_UPDATE_SELECTED_KEY,
   KEYCODEKEY_UPDATE_HOVER_KEY,
   KEYDIFF_UPDATE_KEYDIFF, KEYDIFF_CLEAR_KEYDIFF,
   NOTIFICATION_ADD_ERROR, NOTIFICATION_ADD_WARN, NOTIFICATION_ADD_INFO,
   NOTIFICATION_ADD_SUCCESS, NOTIFICATION_REMOVE,
   APP_UPDATE_SETUP_PHASE, APP_REMAPS_INIT, APP_REMAPS_SET_KEY,
   APP_REMAPS_REMOVE_KEY, APP_PACKAGE_INIT,
   STORAGE_UPDATE_KEYBOARD_DEFINITION,
   KEYBOARD_DEFINITION_FORM_UPDATE_DRAGGING]

/-- An instantiation of the isSameDevice collaborator method used by the
concrete witnesses: device identity by vendor/product pair (spec section
3: identity equality is based on vendor/product fields, not object
identity). -/
def sameDeviceVP (a b : Keyboard) : Bool :=
  a.vendorId == b.vendorId && a.productId == b.productId

/-- Sample handle in the known list (not opened). -/
def kbA : Keyboard := ⟨0, 5, 6, false⟩

/-- Sample handle for the same physical device as kbA, distinct object
(different ref), not opened. -/
def kbB : Keyboard := ⟨1, 5, 6, false⟩

/-- Sample opened handle for the same physical device as kbA. -/
def kbAopened : Keyboard := ⟨2, 5, 6, true⟩

/-- Sample opened handle matching no known device. -/
def kbC : Keyboard := ⟨3, 7, 8, true⟩

/-- Sample keyboard definition with a 2 x 3 matrix. -/
def sampleDefinition : KeyboardDefinition := ⟨"sample", 5, 6, ⟨2, 3⟩⟩

/-- Sample root state used by the concrete witnesses: kbA is listed and
current, no notifications pending. -/
def sampleState : RootState :=
  { entities :=
      { keyboard := some kbA
        keyboards := [kbA]
        keyboardDefinition := sampleDefinition
        device := { layerCount := 0, keymaps := [], macros := [] } }
    app :=
      { setupPhase := SetupPhase.init
        remaps := []
        package := ⟨"remap", "0.1"⟩
        notifications := [] }
    keycodes := ⟨"", 0⟩
    keyboards := ⟨0, ""⟩
    keycodeKey := ⟨none, none, none⟩
    keydiff := ⟨none, none⟩
    header := ⟨false⟩
    keyboardDefinitionForm := ⟨false⟩
    hid := 0
    storage := 0 }

/-- The hid sub-reducer writes only its slice. -/
lemma hidReducer_frame (a : ActionDesc) (s : RootState) :
    eraseSlice .hid (hidReducer a s) = eraseSlice .hid s := by
  unfold hidReducer
  cases a.value <;> (repeat' split) <;> rfl

/-- The header sub-reducer writes only its slice. -/
lemma headerReducer_frame (a : ActionDesc) (s : RootState) :
    eraseSlice .header (headerReducer a s) = eraseSlice .header s := by
  unfold headerReducer
  cases a.value <;> (repeat' split) <;> rfl

/-- The keycodes sub-reducer writes only its slice. -/
lemma keycodesReducer_frame (a : ActionDesc) (s : RootState) :
    eraseSlice .keycodes (keycodesReducer a s) = eraseSlice .keycodes s := by
  unfold keycodesReducer
  cases a.value <;> (repeat' split) <;> rfl

/-- The keyboards sub-reducer writes only its slice. -/
lemma keyboardsReducer_frame (a : ActionDesc) (s : RootState) :
    eraseSlice .keyboards (keyboardsReducer a s) = eraseSlice .keyboards s := by
  unfold keyboardsReducer
  cases a.value <;> (repeat' split) <;> rfl

/-- The keycodekey sub-reducer writes only its slice. -/
lemma keycodekeyReducer_frame (a : ActionDesc) (s : RootState) :
    eraseSlice .keycodekey (keycodekeyReducer a s) =
      eraseSlice .keycodekey s := by
  unfold keycodekeyReducer
  cases a.value <;> (repeat' split) <;> rfl

/-- The keydiff sub-reducer writes only its slice. -/
lemma keydiffReducer_frame (a : ActionDesc) (s : RootState) :
    eraseSlice .keydiff (keydiffReducer a s) = eraseSlice .keydiff s := by
  unfold keydiffReducer
  cases a.value <;> (repeat' split) <;> rfl

/-- The notification sub-reducer writes only its slice. -/
lemma notificationReducer_frame (a : ActionDesc) (now : Nat) (s : RootState) :
    eraseSlice .notification (notificationReducer a now s) =
      eraseSlice .notification s := by
  unfold notificationReducer
  cases a.value <;> (repeat' split) <;> rfl

/-- The app sub-reducer writes only its slice. -/
lemma appReducer_frame (a : ActionDesc) (s : RootState) :
    eraseSlice .app (appReducer a s) = eraseSlice .app s := by
  unfold appReducer
  cases a.value <;> (repeat' split) <;> rfl

/-- The storage sub-reducer writes only its slice. -/
lemma storageReducer_frame (a : ActionDesc) (s : RootState) :
    eraseSlice .storage (storageReducer a s) = eraseSlice .storage s := by
  unfold storageReducer
  cases a.value <;> (repeat' split) <;> rfl

/-- The keyboard-definition-form sub-reducer writes only its slice. -/
lemma keyboardDefinitionFormReducer_frame (a : ActionDesc) (s : RootState) :
    eraseSlice .keyboardDefinitionForm (keyboardDefinitionFormReducer a s) =
      eraseSlice .keyboardDefinitionForm s := by
  unfold keyboardDefinitionFormReducer
  cases a.value <;> (repeat' split) <;> rfl

/-- Every sub-reducer leaves everything outside its namespace's slice
unchanged. -/
lemma subApply_frame (ns : ActionNamespace) (a : ActionDesc) (now : Nat)
    (s : RootState) :
    eraseSlice ns (subApply ns a now s) = eraseSlice ns s := by
  cases ns
  case hid => exact hidReducer_frame a s
  case header => exact headerReducer_frame a s
  case keycodes => exact keycodesReducer_frame a s
  case keyboards => exact keyboardsReducer_frame a s
  case keycodekey => exact keycodekeyReducer_frame a s
  case keydiff => exact keydiffReducer_frame a s
  case notification => exact notificationReducer_frame a now s
  case app => exact appReducer_frame a s
  case storage => exact storageReducer_frame a s
  case keyboardDefinitionForm => exact keyboardDefinitionFormReducer_frame a s

/-- If a string starts with tag q, and the tags p and q are not prefixes
of one another, the string does not start with p.  This disambiguates
the reducer's namespace routing. -/
lemma strStartsWith_excl (t p q : String)
    (hpq : p.data.isPrefixOf q.data = false)
    (hqp : q.data.isPrefixOf p.data = false)
    (h : strStartsWith t q = true) : strStartsWith t p = false := by
  rw [strStartsWith] at h ⊢
  rw [Bool.eq_false_iff]
  intro hc
  have hq : q.data <+: t.data := List.isPrefixOf_iff_prefix.mp h
  have hp : p.data <+: t.data := List.isPrefixOf_iff_prefix.mp hc
  rcases List.prefix_or_prefix_of_prefix hp hq with h1 | h1
  · exact absurd ( List.isPrefixOf_iff_prefix.mpr h1) (by simp [hpq])
  · exact absurd ( List.isPrefixOf_iff_prefix.mpr h1) (by simp [hqp])

/-- An action whose type starts with a namespace's tag is routed to that
namespace's sub-reducer (no two namespace tags are prefixes of one
another, so at most one prefix test can succeed). -/
lemma reducers_route (s : RootState) (a : ActionDesc) (now : Nat)
    (ns : ActionNamespace) (h : strStartsWith a.type (nsTag ns) = true) :
    reducers s a now = subApply ns a now s := by
  cases ns <;> simp only [nsTag] at h
  case hid => simp only [reducers, subApply, h, if_true]
  all_goals {
    first
    | (case header =>
        have e1 := strStartsWith_excl a.type HID_ACTIONS HEADER_ACTIONS
          (by decide) (by decide) h
        simp only [reducers, subApply, h, e1, if_true, Bool.false_eq_true,
          if_false])
    | (case keycodes =>
        have e1 := strStartsWith_excl a.type HID_ACTIONS KEYCODES_ACTIONS
          (by decide) (by decide) h
        have e2 := strStartsWith_excl a.type HEADER_ACTIONS KEYCODES_ACTIONS
          (by decide) (by decide) h
        simp only [reducers, subApply, h, e1, e2, if_true, Bool.false_eq_true,
          if_false])
    | (case keyboards =>
        have e1 := strStartsWith_excl a.type HID_ACTIONS KEYBOARDS_ACTIONS
          (by decide) (by decide) h
        have e2 := strStartsWith_excl a.type HEADER_ACTIONS KEYBOARDS_ACTIONS
          (by decide) (by decide) h
        have e3 := strStartsWith_excl a.type KEYCODES_ACTIONS KEYBOARDS_ACTIONS
          (by decide) (by decide) h
        simp only [reducers, subApply, h, e1, e2, e3, if_true,
          Bool.false_eq_true, if_false])
    | (case keycodekey =>
        have e1 := strStartsWith_excl a.type HID_ACTIONS KEYCODEKEY_ACTIONS
          (by decide) (by decide) h
        have e2 := strStartsWith_excl a.type HEADER_ACTIONS KEYCODEKEY_ACTIONS
          (by decide) (by decide) h
        have e3 := strStartsWith_excl a.type KEYCODES_ACTIONS
          KEYCODEKEY_ACTIONS (by decide) (by decide) h
        have e4 := strStartsWith_excl a.type KEYBOARDS_ACTIONS
          KEYCODEKEY_ACTIONS (by decide) (by decide) h
        simp only [reducers, subApply, h, e1, e2, e3, e4, if_true,
          Bool.false_eq_true, if_false])
    | (case keydiff =>
        have e1 := strStartsWith_excl a.type HID_ACTIONS KEYDIFF_ACTIONS
          (by decide) (by decide) h
        have e2 := strStartsWith_excl a.type HEADER_ACTIONS KEYDIFF_ACTIONS
          (by decide) (by decide) h
        have e3 := strStartsWith_excl a.type KEYCODES_ACTIONS KEYDIFF_ACTIONS
          (by decide) (by decide) h
        have e4 := strStartsWith_excl a.type KEYBOARDS_ACTIONS KEYDIFF_ACTIONS
          (by decide) (by decide) h
        have e5 := strStartsWith_excl a.type KEYCODEKEY_ACTIONS
          KEYDIFF_ACTIONS (by decide) (by decide) h
        simp only [reducers, subApply, h, e1, e2, e3, e4, e5, if_true,
          Bool.false_eq_true, if_false])
    | (case notification =>
        have e1 := strStartsWith_excl a.type HID_ACTIONS NOTIFICATION_ACTIONS
          (by decide) (by decide) h
        have e2 := strStartsWith_excl a.type HEADER_ACTIONS
          NOTIFICATION_ACTIONS (by decide) (by decide) h
        have e3 := strStartsWith_excl a.type KEYCODES_ACTIONS
          NOTIFICATION_ACTIONS (by decide) (by decide) h
        have e4 := strStartsWith_excl a.type KEYBOARDS_ACTIONS
          NOTIFICATION_ACTIONS (by decide) (by decide) h
        have e5 := strStartsWith_excl a.type KEYCODEKEY_ACTIONS
          NOTIFICATION_ACTIONS (by decide) (by decide) h
        have e6 := strStartsWith_excl a.type KEYDIFF_ACTIONS
          NOTIFICATION_ACTIONS (by decide) (by decide) h
        simp only [reducers, subApply, h, e1, e2, e3, e4, e5, e6, if_true,
          Bool.false_eq_true, if_false])
    | (case app =>
        have e1 := strStartsWith_excl a.type HID_ACTIONS APP_ACTIONS
          (by decide) (by decide) h
        have e2 := strStartsWith_excl a.type HEADER_ACTIONS APP_ACTIONS
          (by decide) (by decide) h
        have e3 := strStartsWith_excl a.type KEYCODES_ACTIONS APP_ACTIONS
          (by decide) (by decide) h
        have e4 := strStartsWith_excl a.type KEYBOARDS_ACTIONS APP_ACTIONS
          (by decide) (by decide) h
        have e5 := strStartsWith_excl a.type KEYCODEKEY_ACTIONS APP_ACTIONS
          (by decide) (by decide) h
        have e6 := strStartsWith_excl a.type KEYDIFF_ACTIONS APP_ACTIONS
          (by decide) (by decide) h
        have e7 := strStartsWith_excl a.type NOTIFICATION_ACTIONS APP_ACTIONS
          (by decide) (by decide) h
        simp only [reducers, subApply, h, e1, e2, e3, e4, e5, e6, e7, if_true,
          Bool.false_eq_true, if_false])
    | (case storage =>
        have e1 := strStartsWith_excl a.type HID_ACTIONS STORAGE_ACTIONS
          (by decide) (by decide) h
        have e2 := strStartsWith_excl a.type HEADER_ACTIONS STORAGE_ACTIONS
          (by decide) (by decide) h
        have e3 := strStartsWith_excl a.type KEYCODES_ACTIONS STORAGE_ACTIONS
          (by decide) (by decide) h
        have e4 := strStartsWith_excl a.type KEYBOARDS_ACTIONS STORAGE_ACTIONS
          (by decide) (by decide) h
        have e5 := strStartsWith_excl a.type KEYCODEKEY_ACTIONS
          STORAGE_ACTIONS (by decide) (by decide) h
        have e6 := strStartsWith_excl a.type KEYDIFF_ACTIONS STORAGE_ACTIONS
          (by decide) (by decide) h
        have e7 := strStartsWith_excl a.type NOTIFICATION_ACTIONS
          STORAGE_ACTIONS (by decide) (by decide) h
        have e8 := strStartsWith_excl a.type APP_ACTIONS STORAGE_ACTIONS
          (by decide) (by decide) h
        simp only [reducers, subApply, h, e1, e2, e3, e4, e5, e6, e7, e8,
          if_true, Bool.false_eq_true, if_false])
    | (case keyboardDefinitionForm =>
        have e1 := strStartsWith_excl a.type HID_ACTIONS
          KEYBOARD_DEFINITION_FORM_ACTIONS (by decide) (by decide) h
        have e2 := strStartsWith_excl a.type HEADER_ACTIONS
          KEYBOARD_DEFINITION_FORM_ACTIONS (by decide) (by decide) h
        have e3 := strStartsWith_excl a.type KEYCODES_ACTIONS
          KEYBOARD_DEFINITION_FORM_ACTIONS (by decide) (by decide) h
        have e4 := strStartsWith_excl a.type KEYBOARDS_ACTIONS
          KEYBOARD_DEFINITION_FORM_ACTIONS (by decide) (by decide) h
        have e5 := strStartsWith_excl a.type KEYCODEKEY_ACTIONS
          KEYBOARD_DEFINITION_FORM_ACTIONS (by decide) (by decide) h
        have e6 := strStartsWith_excl a.type KEYDIFF_ACTIONS
          KEYBOARD_DEFINITION_FORM_ACTIONS (by decide) (by decide) h
        have e7 := strStartsWith_excl a.type NOTIFICATION_ACTIONS
          KEYBOARD_DEFINITION_FORM_ACTIONS (by decide) (by decide) h
        have e8 := strStartsWith_excl a.type APP_ACTIONS
          KEYBOARD_DEFINITION_FORM_ACTIONS (by decide) (by decide) h
        have e9 := strStartsWith_excl a.type STORAGE_ACTIONS
          KEYBOARD_DEFINITION_FORM_ACTIONS (by decide) (by decide) h
        simp only [reducers, subApply, h, e1, e2, e3, e4, e5, e6, e7, e8, e9,
          if_true, Bool.false_eq_true, if_false])
  }

/-- The hid sub-reducer ignores actions matching none of its tags. -/
lemma hidReducer_id (a : ActionDesc) (s : RootState)
    (h1 : a.type ≠ HID_CONNECT_KEYBOARD)
    (h2 : a.type ≠ HID_DISCONNECT_KEYBOARD)
    (h3 : a.type ≠ HID_UPDATE_KEYBOARD)
    (h4 : a.type ≠ HID_UPDATE_KEYBOARD_LAYER_COUNT)
    (h5 : a.type ≠ HID_UPDATE_KEYBOARD_LIST)
    (h6 : a.type ≠ HID_UPDATE_KEYMAPS) :
    hidReducer a s = s := by
  unfold hidReducer
  simp [h1, h2, h3, h4, h5, h6]

/-- The header sub-reducer ignores actions matching none of its tags. -/
lemma headerReducer_id (a : ActionDesc) (s : RootState)
    (h1 : a.type ≠ HEADER_UPDATE_FLUSH_LOADING) :
    headerReducer a s = s := by
  unfold headerReducer
  simp [h1]

/-- The keycodes sub-reducer ignores actions matching none of its tags. -/
lemma keycodesReducer_id (a : ActionDesc) (s : RootState)
    (h1 : a.type ≠ KEYCODES_UPDATE_CATEGORY)
    (h2 : a.type ≠ KEYCODES_UPDATE_MACRO_TEXT)
    (h3 : a.type ≠ KEYCODES_LOAD_KEYCODE_INFO_FOR_ALL_CATEGORIES) :
    keycodesReducer a s = s := by
  unfold keycodesReducer
  simp [h1, h2, h3]

/-- The keyboards sub-reducer ignores actions matching none of its tags. -/
lemma keyboardsReducer_id (a : ActionDesc) (s : RootState)
    (h1 : a.type ≠ KEYBOARDS_CLEAR_SELECTED_POS)
    (h2 : a.type ≠ KEYBOARDS_UPDATE_SELECTED_LAYER)
    (h3 : a.type ≠ KEYBOARDS_UPDATE_SELECTED_POS) :
    keyboardsReducer a s = s := by
  unfold keyboardsReducer
  simp [h1, h2, h3]

/-- The keycodekey sub-reducer ignores actions matching none of its
tags. -/
lemma keycodekeyReducer_id (a : ActionDesc) (s : RootState)
    (h1 : a.type ≠ KEYCODEKEY_UPDATE_DRAGGING_KEY)
    (h2 : a.type ≠ KEYCODEKEY_UPDATE_SELECTED_KEY)
    (h3 : a.type ≠ KEYCODEKEY_UPDATE_HOVER_KEY) :
    keycodekeyReducer a s = s := by
  unfold keycodekeyReducer
  simp [h1, h2, h3]

/-- The keydiff sub-reducer ignores actions matching none of its tags. -/
lemma keydiffReducer_id (a : ActionDesc) (s : RootState)
    (h1 : a.type ≠ KEYDIFF_UPDATE_KEYDIFF)
    (h2 : a.type ≠ KEYDIFF_CLEAR_KEYDIFF) :
    keydiffReducer a s = s := by
  unfold keydiffReducer
  simp [h1, h2]

/-- The notification sub-reducer ignores actions matching none of its
tags. -/
lemma notificationReducer_id (a : ActionDesc) (now : Nat) (s : RootState)
    (h1 : a.type ≠ NOTIFICATION_ADD_ERROR)
    (h2 : a.type ≠ NOTIFICATION_ADD_WARN)
    (h3 : a.type ≠ NOTIFICATION_ADD_INFO)
    (h4 : a.type ≠ NOTIFICATION_ADD_SUCCESS)
    (h5 : a.type ≠ NOTIFICATION_REMOVE) :
    notificationReducer a now s = s := by
  unfold notificationReducer
  simp [h1, h2, h3, h4, h5]

/-- The app sub-reducer ignores actions matching none of its tags. -/
lemma appReducer_id (a : ActionDesc) (s : RootState)
    (h1 : a.type ≠ APP_UPDATE_SETUP_PHASE)
    (h2 : a.type ≠ APP_REMAPS_INIT)
    (h3 : a.type ≠ APP_REMAPS_SET_KEY)
    (h4 : a.type ≠ APP_REMAPS_REMOVE_KEY)
    (h5 : a.type ≠ APP_PACKAGE_INIT) :
    appReducer a s = s := by
  unfold appReducer
  simp [h1, h2, h3, h4, h5]

/-- The storage sub-reducer ignores actions matching none of its tags. -/
lemma storageReducer_id (a : ActionDesc) (s : RootState)
    (h1 : a.type ≠ STORAGE_UPDATE_KEYBOARD_DEFINITION) :
    storageReducer a s = s := by
  unfold storageReducer
  simp [h1]

/-- The keyboard-definition-form sub-reducer ignores actions matching
none of its tags. -/
lemma keyboardDefinitionFormReducer_id (a : ActionDesc) (s : RootState)
    (h1 : a.type ≠ KEYBOARD_DEFINITION_FORM_UPDATE_DRAGGING) :
    keyboardDefinitionFormReducer a s = s := by
  unfold keyboardDefinitionFormReducer
  simp [h1]

/-- The notification sub-reducer reads the clock only in its four add
cases. -/
lemma notificationReducer_clock (a : ActionDesc) (t1 t2 : Nat) (s : RootState)
    (h1 : a.type ≠ NOTIFICATION_ADD_ERROR)
    (h2 : a.type ≠ NOTIFICATION_ADD_WARN)
    (h3 : a.type ≠ NOTIFICATION_ADD_INFO)
    (h4 : a.type ≠ NOTIFICATION_ADD_SUCCESS) :
    notificationReducer a t1 s = notificationReducer a t2 s := by
  unfold notificationReducer
  simp [h1, h2, h3, h4]

/-- Non-notification sub-reducers never change the notification queue:
hid. -/
lemma hidReducer_notifications (a : ActionDesc) (s : RootState) :
    (hidReducer a s).app.notifications = s.app.notifications :=
  congrArg (fun st => st.app.notifications) (hidReducer_frame a s)

/-- Non-notification sub-reducers never change the notification queue:
header. -/
lemma headerReducer_notifications (a : ActionDesc) (s : RootState) :
    (headerReducer a s).app.notifications = s.app.notifications :=
  congrArg (fun st => st.app.notifications) (headerReducer_frame a s)

/-- Non-notification sub-reducers never change the notification queue:
keycodes. -/
lemma keycodesReducer_notifications (a : ActionDesc) (s : RootState) :
    (keycodesReducer a s).app.notifications = s.app.notifications :=
  congrArg (fun st => st.app.notifications) (keycodesReducer_frame a s)

/-- Non-notification sub-reducers never change the notification queue:
keyboards. -/
lemma keyboardsReducer_notifications (a : ActionDesc) (s : RootState) :
    (keyboardsReducer a s).app.notifications = s.app.notifications :=
  congrArg (fun st => st.app.notifications) (keyboardsReducer_frame a s)

/-- Non-notification sub-reducers never change the notification queue:
keycodekey. -/
lemma keycodekeyReducer_notifications (a : ActionDesc) (s : RootState) :
    (keycodekeyReducer a s).app.notifications = s.app.notifications :=
  congrArg (fun st => st.app.notifications) (keycodekeyReducer_frame a s)

/-- Non-notification sub-reducers never change the notification queue:
keydiff. -/
lemma keydiffReducer_notifications (a : ActionDesc) (s : RootState) :
    (keydiffReducer a s).app.notifications = s.app.notifications :=
  congrArg (fun st => st.app.notifications) (keydiffReducer_frame a s)

/-- Non-notification sub-reducers never change the notification queue:
app. -/
lemma appReducer_notifications (a : ActionDesc) (s : RootState) :
    (appReducer a s).app.notifications = s.app.notifications :=
  congrArg (fun st => st.app.notifications) (appReducer_frame a s)

/-- Non-notification sub-reducers never change the notification queue:
storage. -/
lemma storageReducer_notifications (a : ActionDesc) (s : RootState) :
    (storageReducer a s).app.notifications = s.app.notifications :=
  congrArg (fun st => st.app.notifications) (storageReducer_frame a s)

/-- Non-notification sub-reducers never change the notification queue:
keyboard-definition-form. -/
lemma keyboardDefinitionFormReducer_notifications (a : ActionDesc)
    (s : RootState) :
    (keyboardDefinitionFormReducer a s).app.notifications =
      s.app.notifications :=
  congrArg (fun st => st.app.notifications)
    (keyboardDefinitionFormReducer_frame a s)

/-- Every reduction step either leaves the notification queue unchanged,
appends exactly one entry keyed by the current clock value, or (on the
remove tag only) filters entries by key. -/
lemma reducers_notifications_cases (s : RootState) (a : ActionDesc)
    (now : Nat) :
    (reducers s a now).app.notifications = s.app.notifications ∨
    (∃ e : Notification, e.key = toString now ∧
      (reducers s a now).app.notifications = s.app.notifications ++ [e]) ∨
    (a.type = NOTIFICATION_REMOVE ∧ ∃ key,
      (reducers s a now).app.notifications =
        s.app.notifications.filter (fun item => item.key != key)) := by
  unfold reducers
  by_cases c1 : strStartsWith a.type HID_ACTIONS = true
  · rw [if_pos c1]
    exact Or.inl (hidReducer_notifications a s)
  rw [if_neg c1]
  by_cases c2 : strStartsWith a.type HEADER_ACTIONS = true
  · rw [if_pos c2]
    exact Or.inl (headerReducer_notifications a s)
  rw [if_neg c2]
  by_cases c3 : strStartsWith a.type KEYCODES_ACTIONS = true
  · rw [if_pos c3]
    exact Or.inl (keycodesReducer_notifications a s)
  rw [if_neg c3]
  by_cases c4 : strStartsWith a.type KEYBOARDS_ACTIONS = true
  · rw [if_pos c4]
    exact Or.inl (keyboardsReducer_notifications a s)
  rw [if_neg c4]
  by_cases c5 : strStartsWith a.type KEYCODEKEY_ACTIONS = true
  · rw [if_pos c5]
    exact Or.inl (keycodekeyReducer_notifications a s)
  rw [if_neg c5]
  by_cases c6 : strStartsWith a.type KEYDIFF_ACTIONS = true
  · rw [if_pos c6]
    exact Or.inl (keydiffReducer_notifications a s)
  rw [if_neg c6]
  by_cases c7 : strStartsWith a.type NOTIFICATION_ACTIONS = true
  · rw [if_pos c7]
    unfold notificationReducer
    by_cases d1 : a.type = NOTIFICATION_ADD_ERROR
    · rw [if_pos d1]
      cases a.value <;>
        first
        | exact Or.inl rfl
        | exact Or.inr (Or.inl ⟨_, rfl, rfl⟩)
    rw [if_neg d1]
    by_cases d2 : a.type = NOTIFICATION_ADD_WARN
    · rw [if_pos d2]
      cases a.value <;>
        first
        | exact Or.inl rfl
        | exact Or.inr (Or.inl ⟨_, rfl, rfl⟩)
    rw [if_neg d2]
    by_cases d3 : a.type = NOTIFICATION_ADD_INFO
    · rw [if_pos d3]
      cases a.value <;>
        first
        | exact Or.inl rfl
        | exact Or.inr (Or.inl ⟨_, rfl, rfl⟩)
    rw [if_neg d3]
    by_cases d4 : a.type = NOTIFICATION_ADD_SUCCESS
    · rw [if_pos d4]
      cases a.value <;>
        first
        | exact Or.inl rfl
        | exact Or.inr (Or.inl ⟨_, rfl, rfl⟩)
    rw [if_neg d4]
    by_cases d5 : a.type = NOTIFICATION_REMOVE
    · rw [if_pos d5]
      cases a.value <;>
        first
        | exact Or.inl rfl
        | exact Or.inr (Or.inr ⟨d5, _, rfl⟩)
    rw [if_neg d5]
    exact Or.inl rfl
  rw [if_neg c7]
  by_cases c8 : strStartsWith a.type APP_ACTIONS = true
  · rw [if_pos c8]
    exact Or.inl (appReducer_notifications a s)
  rw [if_neg c8]
  by_cases c9 : strStartsWith a.type STORAGE_ACTIONS = true
  · rw [if_pos c9]
    exact Or.inl (storageReducer_notifications a s)
  rw [if_neg c9]
  by_cases c10 : strStartsWith a.type KEYBOARD_DEFINITION_FORM_ACTIONS = true
  · rw [if_pos c10]
    exact Or.inl (keyboardDefinitionFormReducer_notifications a s)
  rw [if_neg c10]
  exact Or.inl rfl

/-- If every layer index below N fetches successfully, the keymap loop
from index j returns the keymaps of layers j..N-1 appended to the
accumulator. -/
lemma keymapLoop_success (fetchKm : Nat → Nat → Nat → Option Keymaps)
    (rows cols N : Nat) (km : Nat → Keymaps)
    (hf : ∀ i, i < N → fetchKm i rows cols = some (km i)) :
    ∀ d j acc, N - j = d →
      keymapLoop fetchKm rows cols N j acc
        = some (acc ++ (List.range' j d).map km) := by
  intro d
  induction d with
  | zero =>
    intro j acc hj
    rw [keymapLoop, dif_neg (by omega)]
    simp
  | succ d ih =>
    intro j acc hj
    have hjN : j < N := by omega
    rw [keymapLoop, dif_pos hjN, hf j hjN]
    show keymapLoop fetchKm rows cols N (j + 1) (acc ++ [km j]) = _
    rw [ih (j + 1) (acc ++ [km j]) (by omega)]
    simp [List.range'_succ]

/-- If some layer index in [j, N) fails to fetch, the keymap loop from
index j returns none. -/
lemma keymapLoop_failure (fetchKm : Nat → Nat → Nat → Option Keymaps)
    (rows cols N : Nat) (i : Nat) (hiN : i < N)
    (hfail : fetchKm i rows cols = none) :
    ∀ d j acc, i - j = d → j ≤ i →
      keymapLoop fetchKm rows cols N j acc = none := by
  intro d
  induction d with
  | zero =>
    intro j acc hd hji
    have hji' : j = i := by omega
    subst hji'
    rw [keymapLoop, dif_pos (by omega), hfail]
  | succ d ih =>
    intro j acc hd hji
    rw [keymapLoop, dif_pos (by omega)]
    cases hfj : fetchKm j rows cols with
    | none => rfl
    | some km => exact ih (j + 1) (acc ++ [km]) (by omega) (by omega)

/-- find? returns the unique element satisfying the predicate when it is
a member and no other member satisfies it. -/
lemma find?_eq_of_unique (p : Keyboard → Bool) (A : Keyboard) :
    ∀ l : List Keyboard, A ∈ l → p A = true →
      (∀ k ∈ l, p k = true → k = A) → l.find? p = some A := by
  intro l
  induction l with
  | nil => intro h _ _; cases h
  | cons hd tl ih =>
    intro hmem hpA huniq
    by_cases hph : p hd = true
    · rw [List.find?_cons_of_pos _ hph,
        huniq hd (List.mem_cons_self hd tl) hph]
    · rw [List.find?_cons_of_neg _ hph]
      have hAtl : A ∈ tl := by
        rcases List.mem_cons.mp hmem with h | h
        · exact absurd (h ▸ hpA) hph
        · exact h
      exact ih hAtl hpA (fun k hk hpk => huniq k (List.mem_cons_of_mem hd hk) hpk)

/-- C1 counterexample: in a session-initialization run from openKeyboard
in which fetchLayerCount fails, none of the five updates is dispatched,
but a setup-phase transition to openedKeyboard IS dispatched and takes
effect, contradicting the claim that no setup-phase transition occurs on
a fetch failure. -/
theorem claim1_counterexample :
    openKeyboard sampleState true none (fun _ _ _ => none) =
      [Eff.act (AppActions.updateSetupPhase SetupPhase.openedKeyboard)] ∧
    (applyEffs sampleState
        (openKeyboard sampleState true none (fun _ _ _ => none))
        0).app.setupPhase = SetupPhase.openedKeyboard ∧
    sampleState.app.setupPhase ≠ SetupPhase.openedKeyboard :=
  ⟨rfl, rfl, by decide⟩

/-- C1 (amended): if fetchLayerCount fails, or some fetchKeymaps call
for a layer below the fetched layer count fails, then the
session-initialization helper dispatches nothing at all (no layer-count,
keymap-set, remap-init or selected-layer update, no current-handle
update; partial keymaps discarded), but the enclosing openKeyboard thunk
still dispatches exactly the setup-phase transition to openedKeyboard. -/
theorem claim1_fetch_failure_aborts (s : RootState) (kb : Keyboard)
    (layerResult : Option Nat) (fetchKm : Nat → Nat → Nat → Option Keymaps)
    (hkb : s.entities.keyboard = some kb)
    (hfail : layerResult = none ∨
      ∃ N, layerResult = some N ∧ ∃ i, i < N ∧
        fetchKm i s.entities.keyboardDefinition.matrix.rows
          s.entities.keyboardDefinition.matrix.cols = none) :
    initOpenedKeyboard kb layerResult fetchKm
        s.entities.keyboardDefinition.matrix.rows
        s.entities.keyboardDefinition.matrix.cols = [] ∧
    openKeyboard s true layerResult fetchKm =
      [Eff.act (AppActions.updateSetupPhase SetupPhase.openedKeyboard)] := by
  have hinit : initOpenedKeyboard kb layerResult fetchKm
      s.entities.keyboardDefinition.matrix.rows
      s.entities.keyboardDefinition.matrix.cols = [] := by
    rcases hfail with rfl | ⟨N, rfl, i, hiN, hf⟩
    · rfl
    · simp only [initOpenedKeyboard]
      rw [keymapLoop_failure fetchKm
        s.entities.keyboardDefinition.matrix.rows
        s.entities.keyboardDefinition.matrix.cols N i hiN hf i 0 [] (by omega)
        (by omega)]
  refine ⟨hinit, ?_⟩
  unfold openKeyboard
  rw [hkb]
  simp [hinit]

/-- C1 witness: concrete failing run. -/
theorem claim1_witness :
    initOpenedKeyboard kbA none (fun _ _ _ => none)
        sampleState.entities.keyboardDefinition.matrix.rows
        sampleState.entities.keyboardDefinition.matrix.cols = [] ∧
    openKeyboard sampleState true none (fun _ _ _ => none) =
      [Eff.act (AppActions.updateSetupPhase SetupPhase.openedKeyboard)] :=
  claim1_fetch_failure_aborts sampleState kbA none (fun _ _ _ => none) rfl
    (Or.inl rfl)

/-- C2: when fetchLayerCount returns N and every per-layer fetch
succeeds, the session-initialization helper dispatches exactly five
actions in order: layer-count update with N, keymap-set update with the
N keymaps of layers 0..N-1 in increasing order, remap-table
re-initialization sized to N, selected-layer reset to 0, and
current-handle update with the opened keyboard. -/
theorem claim2_success_dispatch_sequence (kb : Keyboard) (N rows cols : Nat)
    (fetchKm : Nat → Nat → Nat → Option Keymaps) (km : Nat → Keymaps)
    (hf : ∀ i, i < N → fetchKm i rows cols = some (km i)) :
    initOpenedKeyboard kb (some N) fetchKm rows cols =
      [Eff.act (hidActions.updateKeyboardLayerCount N),
       Eff.act (hidActions.updateKeymaps ((List.range N).map km)),
       Eff.act (AppActions.remapsInit N),
       Eff.act (KeyboardsActions.updateSelectedLayer 0),
       Eff.act (hidActions.updateKeyboard kb)] := by
  simp only [initOpenedKeyboard]
  rw [keymapLoop_success fetchKm rows cols N km hf N 0 [] (by omega)]
  simp [List.range_eq_range']

/-- C2 witness: two layers, all fetches succeed. -/
theorem claim2_witness :
    initOpenedKeyboard kbA (some 2) (fun i _ _ => some (i + 10)) 2 3 =
      [Eff.act (hidActions.updateKeyboardLayerCount 2),
       Eff.act (hidActions.updateKeymaps [10, 11]),
       Eff.act (AppActions.remapsInit 2),
       Eff.act (KeyboardsActions.updateSelectedLayer 0),
       Eff.act (hidActions.updateKeyboard kbA)] :=
  (claim2_success_dispatch_sequence kbA 2 2 3 (fun i _ _ => some (i + 10))
    (fun i => i + 10) (fun _ _ => rfl)).trans rfl

/-- C3: an action whose type starts with a namespace's routing tag is
handled by that namespace's sub-reducer and leaves every part of the
state tree outside that namespace's slice unchanged (slices as listed at
eraseSlice, read off the sub-reducers' writes). -/
theorem claim3_subreducer_frame (ns : ActionNamespace) (s : RootState)
    (a : ActionDesc) (now : Nat)
    (h : strStartsWith a.type (nsTag ns) = true) :
    eraseSlice ns (reducers s a now) = eraseSlice ns s := by
  rw [reducers_route s a now ns h]
  exact subApply_frame ns a now s

/-- C3 witness: a notification add touches nothing outside the
notification slice. -/
theorem claim3_witness :
    strStartsWith (NotificationActions.addWarn "w").type
      (nsTag ActionNamespace.notification) = true ∧
    eraseSlice ActionNamespace.notification
        (reducers sampleState (NotificationActions.addWarn "w") 4) =
      eraseSlice ActionNamespace.notification sampleState :=
  ⟨by decide,
   claim3_subreducer_frame ActionNamespace.notification sampleState
     (NotificationActions.addWarn "w") 4 (by decide)⟩

/-- C4 counterexample: the reducer is not a function of (state, action)
alone: the notification sub-reducer reads Date.now() to build the new
entry's key, so two runs of the same (state, action) pair at different
clock values produce structurally different states. -/
theorem claim4_counterexample :
    reducers sampleState (NotificationActions.addWarn "m") 0 ≠
      reducers sampleState (NotificationActions.addWarn "m") 1 := by
  decide

/-- C4 (amended): the reducer is deterministic as a function of (state,
action, clock); for every action whose tag is not one of the four
notification-add tags the output is independent of the clock as well, so
two runs on the same (state, action) pair agree. -/
theorem claim4_clock_independence (s : RootState) (a : ActionDesc)
    (t1 t2 : Nat)
    (h1 : a.type ≠ NOTIFICATION_ADD_ERROR)
    (h2 : a.type ≠ NOTIFICATION_ADD_WARN)
    (h3 : a.type ≠ NOTIFICATION_ADD_INFO)
    (h4 : a.type ≠ NOTIFICATION_ADD_SUCCESS) :
    reducers s a t1 = reducers s a t2 := by
  by_cases c1 : strStartsWith a.type HID_ACTIONS = true
  · rw [reducers_route s a t1 .hid c1, reducers_route s a t2 .hid c1]
    rfl
  by_cases c2 : strStartsWith a.type HEADER_ACTIONS = true
  · rw [reducers_route s a t1 .header c2, reducers_route s a t2 .header c2]
    rfl
  by_cases c3 : strStartsWith a.type KEYCODES_ACTIONS = true
  · rw [reducers_route s a t1 .keycodes c3,
      reducers_route s a t2 .keycodes c3]
    rfl
  by_cases c4 : strStartsWith a.type KEYBOARDS_ACTIONS = true
  · rw [reducers_route s a t1 .keyboards c4,
      reducers_route s a t2 .keyboards c4]
    rfl
  by_cases c5 : strStartsWith a.type KEYCODEKEY_ACTIONS = true
  · rw [reducers_route s a t1 .keycodekey c5,
      reducers_route s a t2 .keycodekey c5]
    rfl
  by_cases c6 : strStartsWith a.type KEYDIFF_ACTIONS = true
  · rw [reducers_route s a t1 .keydiff c6, reducers_route s a t2 .keydiff c6]
    rfl
  by_cases c7 : strStartsWith a.type NOTIFICATION_ACTIONS = true
  · rw [reducers_route s a t1 .notification c7,
      reducers_route s a t2 .notification c7]
    exact notificationReducer_clock a t1 t2 s h1 h2 h3 h4
  by_cases c8 : strStartsWith a.type APP_ACTIONS = true
  · rw [reducers_route s a t1 .app c8, reducers_route s a t2 .app c8]
    rfl
  by_cases c9 : strStartsWith a.type STORAGE_ACTIONS = true
  · rw [reducers_route s a t1 .storage c9, reducers_route s a t2 .storage c9]
    rfl
  by_cases c10 : strStartsWith a.type KEYBOARD_DEFINITION_FORM_ACTIONS = true
  · rw [reducers_route s a t1 .keyboardDefinitionForm c10,
      reducers_route s a t2 .keyboardDefinitionForm c10]
    rfl
  simp [reducers, c1, c2, c3, c4, c5, c6, c7, c8, c9, c10]

/-- C4 witness: a non-notification action reduced at two different clock
values gives the same state. -/
theorem claim4_witness :
    reducers sampleState (hidActions.updateKeyboard kbB) 0 =
      reducers sampleState (hidActions.updateKeyboard kbB) 1 :=
  claim4_clock_independence sampleState (hidActions.updateKeyboard kbB) 0 1
    (by decide) (by decide) (by decide) (by decide)

/-- C5 counterexample: two warning notifications added during the same
millisecond (the same Date.now() value, here 5) produce two entries with
the same key, refuting the claim that no two entries ever share a key. -/
theorem claim5_counterexample :
    ((applyEffs sampleState
        [Eff.act (NotificationActions.addWarn "w"),
         Eff.act (NotificationActions.addWarn "w")] 5).app.notifications.map
      Notification.key) = ["5", "5"] ∧
    ¬ ((applyEffs sampleState
        [Eff.act (NotificationActions.addWarn "w"),
         Eff.act (NotificationActions.addWarn "w")] 5).app.notifications.map
      Notification.key).Nodup := by
  exact ⟨by decide, by decide⟩

/-- C5 (amended): notification entries are keyed by their creation
timestamp and are removed only by the explicit remove action: every
action other than NOTIFICATION_REMOVE preserves every existing entry;
key uniqueness is preserved provided the creation timestamp of an added
entry differs from every key already present (it can be violated by two
additions in the same millisecond); and the remove action removes
exactly the entries carrying the given key. -/
theorem claim5_notification_invariants (s : RootState) (a : ActionDesc)
    (now : Nat) :
    (a.type ≠ NOTIFICATION_REMOVE →
      ∀ n ∈ s.app.notifications, n ∈ (reducers s a now).app.notifications) ∧
    ((s.app.notifications.map Notification.key).Nodup →
      toString now ∉ s.app.notifications.map Notification.key →
      ((reducers s a now).app.notifications.map Notification.key).Nodup) ∧
    (∀ key,
      (reducers s (NotificationActions.removeNotification key)
          now).app.notifications =
        s.app.notifications.filter (fun item => item.key != key)) := by
  refine ⟨?_, ?_, fun key => rfl⟩
  · intro hne n hn
    rcases reducers_notifications_cases s a now with h | ⟨e, _, h⟩ |
      ⟨htag, _, _⟩
    · rw [h]; exact hn
    · rw [h]; exact List.mem_append_left _ hn
    · exact absurd htag hne
  · intro hnd hfresh
    rcases reducers_notifications_cases s a now with h | ⟨e, he, h⟩ |
      ⟨_, key, h⟩
    · rw [h]; exact hnd
    · rw [h, List.map_append]
      have hmape : List.map Notification.key [e] = [toString now] := by
        simp [he]
      rw [hmape]
      refine List.Nodup.append hnd (List.nodup_singleton _) ?_
      intro x hx hmem
      rw [List.mem_singleton] at hmem
      subst hmem
      exact hfresh hx
    · rw [h]
      exact List.Nodup.sublist
        ((List.filter_sublist s.app.notifications).map Notification.key) hnd

/-- C5 witness: concrete instantiation of the amended invariants. -/
theorem claim5_witness :
    (∀ n ∈ sampleState.app.notifications,
      n ∈ (reducers sampleState (NotificationActions.addWarn "w")
          3).app.notifications) ∧
    ((reducers sampleState (NotificationActions.addWarn "w")
        3).app.notifications.map Notification.key).Nodup ∧
    (reducers sampleState (NotificationActions.removeNotification "k")
        3).app.notifications =
      sampleState.app.notifications.filter (fun item => item.key != "k") :=
  ⟨(claim5_notification_invariants sampleState
      (NotificationActions.addWarn "w") 3).1 (by decide),
   (claim5_notification_invariants sampleState
      (NotificationActions.addWarn "w") 3).2.1 (by decide) (by decide),
   (claim5_notification_invariants sampleState
      (NotificationActions.addWarn "w") 3).2.2 "k"⟩

/-- C6: for either connect workflow, if the acquired handle reports
isOpened() and matches a known device (for connectAnotherKeyboard: some
handle in the known list; for connectKeyboard: the current handle), the
only dispatch is the setup-phase transition to openedKeyboard, and the
resulting state differs from the input state only in that phase (in
particular the known-keyboards collection is untouched). -/
theorem claim6_connect_opened_known (same : Keyboard → Keyboard → Bool)
    (s : RootState) (keyboard k0 cur : Keyboard) (now : Nat) :
    (keyboard.opened = true →
      s.entities.keyboards.find? (fun kbd => same kbd keyboard) = some k0 →
      connectAnotherKeyboard same s (some keyboard) =
        [Eff.act (AppActions.updateSetupPhase SetupPhase.openedKeyboard)] ∧
      applyEffs s (connectAnotherKeyboard same s (some keyboard)) now =
        { s with app :=
            { s.app with setupPhase := SetupPhase.openedKeyboard } }) ∧
    (keyboard.opened = true → s.entities.keyboard = some cur →
      same cur keyboard = true →
      connectKeyboard same s keyboard =
        [Eff.act (AppActions.updateSetupPhase SetupPhase.openedKeyboard)] ∧
      applyEffs s (connectKeyboard same s keyboard) now =
        { s with app :=
            { s.app with setupPhase := SetupPhase.openedKeyboard } }) := by
  constructor
  · intro hop hfind
    have htr : connectAnotherKeyboard same s (some keyboard) =
        [Eff.act (AppActions.updateSetupPhase SetupPhase.openedKeyboard)] := by
      simp [connectAnotherKeyboard, hop, hfind]
    refine ⟨htr, ?_⟩
    rw [htr]
    rfl
  · intro hop hcur hsame
    have htr : connectKeyboard same s keyboard =
        [Eff.act (AppActions.updateSetupPhase SetupPhase.openedKeyboard)] := by
      simp [connectKeyboard, hop, hcur, hsame]
    refine ⟨htr, ?_⟩
    rw [htr]
    rfl

/-- C6 witness: opened handle for the device already listed and current. -/
theorem claim6_witness :
    (connectAnotherKeyboard sameDeviceVP sampleState (some kbAopened) =
      [Eff.act (AppActions.updateSetupPhase SetupPhase.openedKeyboard)] ∧
     applyEffs sampleState
        (connectAnotherKeyboard sameDeviceVP sampleState (some kbAopened)) 0 =
      { sampleState with app :=
          { sampleState.app with
              setupPhase := SetupPhase.openedKeyboard } }) ∧
    (connectKeyboard sameDeviceVP sampleState kbAopened =
      [Eff.act (AppActions.updateSetupPhase SetupPhase.openedKeyboard)] ∧
     applyEffs sampleState
        (connectKeyboard sameDeviceVP sampleState kbAopened) 0 =
      { sampleState with app :=
          { sampleState.app with
              setupPhase := SetupPhase.openedKeyboard } }) :=
  ⟨(claim6_connect_opened_known sameDeviceVP sampleState kbAopened kbA kbA
      0).1 (by decide) (by decide),
   (claim6_connect_opened_known sameDeviceVP sampleState kbAopened kbA kbA
      0).2 (by decide) (by decide) (by decide)⟩

/-- C7: for either connect workflow, if the acquired handle reports
isOpened() and matches no known device (for connectAnotherKeyboard: no
handle in the known list; for connectKeyboard: not the current handle),
the only dispatch is one warning notification, and the resulting state
differs from the input state only by that appended warning entry (in
particular the known-keyboards collection, the current handle and the
setup phase are unchanged). -/
theorem claim7_connect_opened_unknown (same : Keyboard → Keyboard → Bool)
    (s : RootState) (keyboard : Keyboard) (now : Nat) :
    (keyboard.opened = true →
      s.entities.keyboards.find? (fun kbd => same kbd keyboard) = none →
      connectAnotherKeyboard same s (some keyboard) =
        [Eff.act (NotificationActions.addWarn alreadyOpenedMsg)] ∧
      applyEffs s (connectAnotherKeyboard same s (some keyboard)) now =
        { s with app := { s.app with notifications :=
            s.app.notifications ++
              [⟨toString now, "warning", alreadyOpenedMsg⟩] } }) ∧
    (keyboard.opened = true →
      (∀ cur, s.entities.keyboard = some cur → same cur keyboard = false) →
      connectKeyboard same s keyboard =
        [Eff.act (NotificationActions.addWarn alreadyOpenedMsg)] ∧
      applyEffs s (connectKeyboard same s keyboard) now =
        { s with app := { s.app with notifications :=
            s.app.notifications ++
              [⟨toString now, "warning", alreadyOpenedMsg⟩] } }) := by
  constructor
  · intro hop hfind
    have htr : connectAnotherKeyboard same s (some keyboard) =
        [Eff.act (NotificationActions.addWarn alreadyOpenedMsg)] := by
      simp [connectAnotherKeyboard, hop, hfind]
    refine ⟨htr, ?_⟩
    rw [htr]
    rfl
  · intro hop hnone
    have htr : connectKeyboard same s keyboard =
        [Eff.act (NotificationActions.addWarn alreadyOpenedMsg)] := by
      cases hc : s.entities.keyboard with
      | none => simp [connectKeyboard, hop, hc]
      | some cur => simp [connectKeyboard, hop, hc, hnone cur hc]
    refine ⟨htr, ?_⟩
    rw [htr]
    rfl

/-- C7 witness: opened handle for an unlisted device. -/
theorem claim7_witness :
    (connectAnotherKeyboard sameDeviceVP sampleState (some kbC) =
      [Eff.act (NotificationActions.addWarn alreadyOpenedMsg)] ∧
     applyEffs sampleState
        (connectAnotherKeyboard sameDeviceVP sampleState (some kbC)) 7 =
      { sampleState with app := { sampleState.app with notifications :=
          sampleState.app.notifications ++
            [⟨toString 7, "warning", alreadyOpenedMsg⟩] } }) ∧
    (connectKeyboard sameDeviceVP sampleState kbC =
      [Eff.act (NotificationActions.addWarn alreadyOpenedMsg)] ∧
     applyEffs sampleState (connectKeyboard sameDeviceVP sampleState kbC) 7 =
      { sampleState with app := { sampleState.app with notifications :=
          sampleState.app.notifications ++
            [⟨toString 7, "warning", alreadyOpenedMsg⟩] } }) :=
  ⟨(claim7_connect_opened_unknown sameDeviceVP sampleState kbC 7).1
      (by decide) (by decide),
   (claim7_connect_opened_unknown sameDeviceVP sampleState kbC 7).2
      (by decide) (by decide)⟩

/-- C8: for either connect workflow on a non-opened handle B matching a
handle A already in the known list (and no other listed handle matching
B), no list update is dispatched -- the dispatch sequence is exactly
current-handle update with the listed A, phase transition to fetching,
and the definition fetch with B's vendor/product identity -- and in the
resulting state the known-keyboards collection is unchanged and the
current handle is the listed A, not B. -/
theorem claim8_connect_dedup (same : Keyboard → Keyboard → Bool)
    (s : RootState) (A B : Keyboard) (now : Nat)
    (hopen : B.opened = false)
    (hmem : A ∈ s.entities.keyboards)
    (hsame : same A B = true)
    (huniq : ∀ k ∈ s.entities.keyboards, same k B = true → k = A) :
    connectAnotherKeyboard same s (some B) =
      [Eff.act (hidActions.updateKeyboard A),
       Eff.act
         (AppActions.updateSetupPhase SetupPhase.fetchingKeyboardDefinition),
       Eff.fetchKeyboardDefinition B.vendorId B.productId] ∧
    applyEffs s (connectAnotherKeyboard same s (some B)) now =
      { s with
          entities := { s.entities with keyboard := some A }
          app := { s.app with
              setupPhase := SetupPhase.fetchingKeyboardDefinition } } ∧
    connectKeyboard same s B =
      [Eff.act (hidActions.updateKeyboard A),
       Eff.act
         (AppActions.updateSetupPhase SetupPhase.fetchingKeyboardDefinition),
       Eff.fetchKeyboardDefinition B.vendorId B.productId] ∧
    applyEffs s (connectKeyboard same s B) now =
      { s with
          entities := { s.entities with keyboard := some A }
          app := { s.app with
              setupPhase := SetupPhase.fetchingKeyboardDefinition } } := by
  have hfind : s.entities.keyboards.find? (fun kbd => same kbd B) = some A :=
    find?_eq_of_unique (fun kbd => same kbd B) A s.entities.keyboards hmem
      hsame huniq
  have htr1 : connectAnotherKeyboard same s (some B) =
      [Eff.act (hidActions.updateKeyboard A),
       Eff.act
         (AppActions.updateSetupPhase SetupPhase.fetchingKeyboardDefinition),
       Eff.fetchKeyboardDefinition B.vendorId B.productId] := by
    simp [connectAnotherKeyboard, hopen, hfind]
  have htr2 : connectKeyboard same s B =
      [Eff.act (hidActions.updateKeyboard A),
       Eff.act
         (AppActions.updateSetupPhase SetupPhase.fetchingKeyboardDefinition),
       Eff.fetchKeyboardDefinition B.vendorId B.productId] := by
    simp [connectKeyboard, hopen, hfind]
  refine ⟨htr1, ?_, htr2, ?_⟩
  · rw [htr1]
    rfl
  · rw [htr2]
    rfl

/-- C8 witness: kbB is a fresh handle for the device of listed kbA. -/
theorem claim8_witness :
    connectAnotherKeyboard sameDeviceVP sampleState (some kbB) =
      [Eff.act (hidActions.updateKeyboard kbA),
       Eff.act
         (AppActions.updateSetupPhase SetupPhase.fetchingKeyboardDefinition),
       Eff.fetchKeyboardDefinition kbB.vendorId kbB.productId] ∧
    applyEffs sampleState
        (connectAnotherKeyboard sameDeviceVP sampleState (some kbB)) 0 =
      { sampleState with
          entities := { sampleState.entities with keyboard := some kbA }
          app := { sampleState.app with
              setupPhase := SetupPhase.fetchingKeyboardDefinition } } ∧
    connectKeyboard sameDeviceVP sampleState kbB =
      [Eff.act (hidActions.updateKeyboard kbA),
       Eff.act
         (AppActions.updateSetupPhase SetupPhase.fetchingKeyboardDefinition),
       Eff.fetchKeyboardDefinition kbB.vendorId kbB.productId] ∧
    applyEffs sampleState (connectKeyboard sameDeviceVP sampleState kbB) 0 =
      { sampleState with
          entities := { sampleState.entities with keyboard := some kbA }
          app := { sampleState.app with
              setupPhase := SetupPhase.fetchingKeyboardDefinition } } :=
  claim8_connect_dedup sameDeviceVP sampleState kbA kbB 0 (by decide)
    (by decide) (by decide) (by decide)

/-- C9: an action whose type tag matches no case handled by any
sub-reducer (unknown tags, future tags, and declared-but-unhandled tags
such as HID_OPEN_KEYBOARD) leaves the state unchanged. -/
theorem claim9_unmatched_identity (s : RootState) (a : ActionDesc) (now : Nat)
    (h : a.type ∉ handledTags) : reducers s a now = s := by
  simp only [handledTags, List.mem_cons, List.not_mem_nil, or_false,
    not_or] at h
  obtain ⟨n1, n2, n3, n4, n5, n6, n7, n8, n9, n10, n11, n12, n13, n14, n15,
    n16, n17, n18, n19, n20, n21, n22, n23, n24, n25, n26, n27, n28, n29,
    n30⟩ := h
  by_cases c1 : strStartsWith a.type HID_ACTIONS = true
  · rw [reducers_route s a now .hid c1]
    exact hidReducer_id a s n1 n2 n3 n4 n5 n6
  by_cases c2 : strStartsWith a.type HEADER_ACTIONS = true
  · rw [reducers_route s a now .header c2]
    exact headerReducer_id a s n7
  by_cases c3 : strStartsWith a.type KEYCODES_ACTIONS = true
  · rw [reducers_route s a now .keycodes c3]
    exact keycodesReducer_id a s n8 n9 n10
  by_cases c4 : strStartsWith a.type KEYBOARDS_ACTIONS = true
  · rw [reducers_route s a now .keyboards c4]
    exact keyboardsReducer_id a s n11 n12 n13
  by_cases c5 : strStartsWith a.type KEYCODEKEY_ACTIONS = true
  · rw [reducers_route s a now .keycodekey c5]
    exact keycodekeyReducer_id a s n14 n15 n16
  by_cases c6 : strStartsWith a.type KEYDIFF_ACTIONS = true
  · rw [reducers_route s a now .keydiff c6]
    exact keydiffReducer_id a s n17 n18
  by_cases c7 : strStartsWith a.type NOTIFICATION_ACTIONS = true
  · rw [reducers_route s a now .notification c7]
    exact notificationReducer_id a now s n19 n20 n21 n22 n23
  by_cases c8 : strStartsWith a.type APP_ACTIONS = true
  · rw [reducers_route s a now .app c8]
    exact appReducer_id a s n24 n25 n26 n27 n28
  by_cases c9 : strStartsWith a.type STORAGE_ACTIONS = true
  · rw [reducers_route s a now .storage c9]
    exact storageReducer_id a s n29
  by_cases c10 : strStartsWith a.type KEYBOARD_DEFINITION_FORM_ACTIONS = true
  · rw [reducers_route s a now .keyboardDefinitionForm c10]
    exact keyboardDefinitionFormReducer_id a s n30
  simp [reducers, c1, c2, c3, c4, c5, c6, c7, c8, c9, c10]

/-- C9 witness: HID_OPEN_KEYBOARD is declared but handled by no
sub-reducer case, so it is a no-op. -/
theorem claim9_witness :
    reducers sampleState ⟨HID_OPEN_KEYBOARD, Payload.num 0⟩ 0 = sampleState :=
  claim9_unmatched_identity sampleState ⟨HID_OPEN_KEYBOARD, Payload.num 0⟩ 0
    (by decide)

/-- C10: the disconnect action leaves the known-keyboards collection
unchanged (the source discards the result of its filter call, so the
handle persists in the known list), nulls the current handle exactly
when it is the disconnected keyboard, and changes nothing else. -/
theorem claim10_disconnect_effect (s : RootState) (k : Keyboard) (now : Nat) :
    reducers s (hidActions.disconnectKeyboard k) now =
      { s with entities := { s.entities with
          keyboard := if s.entities.keyboard = some k then none
                      else s.entities.keyboard } } := by
  have h0 : reducers s (hidActions.disconnectKeyboard k) now =
      (if s.entities.keyboard = some k then
        { s with entities := { s.entities with keyboard := none } }
      else s) := rfl
  rw [h0]
  split
  · rfl
  · rfl
